import Mathlib

/-
Verification of the Solar-Planner weather-to-solar core against its
natural-language specification.

Shallow embedding conventions:
- JavaScript numbers that flow through the data path (daily weather samples,
  sums, averages, PSH values) are modelled by the four-constructor type
  JSNum: an exact rational, positive infinity, negative infinity, or NaN.
  This captures the observable IEEE-754 special values while keeping the
  finite arithmetic exact; none of the verified code depends on rounding of
  finite doubles.
- Validated scalar inputs (latitude, tilt angles, gain constants) are plain
  rationals, since the worker rejects non-finite coordinates before the core
  runs and the gain tables are small decimal constants.
- The host functions with no algorithmic content in the repository are
  abstracted: the Date month extraction (new Date(s).getMonth()) becomes a
  parameter gm : String -> Option Nat, where none models an invalid date
  (getMonth() returning NaN, which fails the 0 <= month < 12 guard), and the
  transcendental Math.pow(Math.cos(d * PI / 180), 1.5) becomes a parameter
  cosPow : Q -> Q applied to the tilt difference d in degrees. Theorems
  quantify over these parameters, using only facts true of the real host
  functions (for example cosPow 0 = 1, because cos 0 ^ 1.5 = 1); inside
  processSolarData the tilt difference is at most 23.6 degrees, so the true
  cosine is positive and the power is a well-defined positive real.
-/

namespace SolarPlanner

/-- Model of a JavaScript number as used by the worker data path: an exact
finite rational, one of the two infinities, or NaN. -/
inductive JSNum where
  | fin (q : ℚ)
  | posInf
  | negInf
  | nan
deriving DecidableEq

namespace JSNum

/-- JavaScript addition restricted to the cases arising in the worker:
NaN absorbs, infinities of opposite sign give NaN, otherwise exact. -/
def add : JSNum → JSNum → JSNum
  | fin p, fin q => fin (p + q)
  | fin _, posInf => posInf
  | fin _, negInf => negInf
  | fin _, nan => nan
  | posInf, fin _ => posInf
  | posInf, posInf => posInf
  | posInf, negInf => nan
  | posInf, nan => nan
  | negInf, fin _ => negInf
  | negInf, posInf => nan
  | negInf, negInf => negInf
  | negInf, nan => nan
  | nan, _ => nan

/-- JavaScript multiplication by a finite rational constant. -/
def mulQ : JSNum → ℚ → JSNum
  | fin p, q => fin (p * q)
  | posInf, q => if 0 < q then posInf else if q < 0 then negInf else nan
  | negInf, q => if 0 < q then negInf else if q < 0 then posInf else nan
  | nan, _ => nan

/-- JavaScript division by a finite rational constant. -/
def divQ : JSNum → ℚ → JSNum
  | fin p, q =>
      if q = 0 then (if 0 < p then posInf else if p < 0 then negInf else nan)
      else fin (p / q)
  | posInf, q => if q < 0 then negInf else posInf
  | negInf, q => if q < 0 then posInf else negInf
  | nan, _ => nan

/-- JavaScript isNaN on a number. -/
def isNaNb : JSNum → Bool
  | nan => true
  | _ => false

/-- JavaScript comparison x <= y: false whenever either side is NaN. -/
def le : JSNum → JSNum → Bool
  | fin p, fin q => decide (p ≤ q)
  | fin _, posInf => true
  | fin _, negInf => false
  | fin _, nan => false
  | posInf, fin _ => false
  | posInf, posInf => true
  | posInf, negInf => false
  | posInf, nan => false
  | negInf, fin _ => true
  | negInf, posInf => true
  | negInf, negInf => true
  | negInf, nan => false
  | nan, _ => false

end JSNum

/-- JavaScript Math.round on an exact rational: half-up, that is the floor
of x + 1/2 (ties go toward positive infinity, so Math.round(-2.5) = -2). -/
def mathRound (q : ℚ) : ℤ := ⌊q + 1 / 2⌋

/-- JavaScript Math.round extended to the special values: infinities are
fixed points and NaN stays NaN. -/
def JSNum.roundNum : JSNum → JSNum
  | fin q => fin ((mathRound q : ℤ) : ℚ)
  | posInf => posInf
  | negInf => negInf
  | nan => nan

/-- Embeds one element of the Visual Crossing days array: the datetime
string plus the five numeric fields requested by the worker, each possibly
absent (null or undefined in JSON becomes none). -/
structure VCDay where
  datetime : String
  tempmax : Option JSNum
  tempmin : Option JSNum
  temp : Option JSNum
  humidity : Option JSNum
  solarenergy : Option JSNum
deriving DecidableEq

/-- Embeds avg from src/worker/src/utils/math.ts: empty array gives 0;
otherwise the mean of the values that are present (val != null, which the
filterMap models), are numbers (always true in this typed model) and are
not NaN; if no value contributes the result is 0. The field access arr[i][key]
is modelled by the projection f. -/
def avg {α : Type} (arr : List α) (f : α → Option JSNum) : JSNum :=
  if arr.isEmpty then .fin 0
  else
    let vals := (arr.filterMap f).filter (fun v => !v.isNaNb)
    if vals.isEmpty then .fin 0
    else (vals.foldl JSNum.add (.fin 0)).divQ (vals.length : ℚ)

/-- Embeds round from src/worker/src/utils/math.ts:
if (num == null || isNaN(num)) return 0; Math.round(num * 10^d) / 10^d.
The null guard cannot fire here because every call site passes a number. -/
def round (num : JSNum) (decimals : ℕ) : JSNum :=
  if num.isNaNb then .fin 0
  else ((num.mulQ ((10 : ℚ) ^ decimals)).roundNum).divQ ((10 : ℚ) ^ decimals)

/-- Month labels used in the worker output. -/
def MONTHS : List String :=
  ["Jan", "Feb", "Mar", "Apr", "May", "Jun", "Jul", "Aug", "Sep", "Oct", "Nov", "Dec"]

/-- Mean monthly solar declination table from the solar service (degrees). -/
def SOLAR_DECLINATIONS : List ℚ :=
  [-20.9, -13.0, -2.4, 9.4, 18.8, 23.1, 21.2, 13.5, 2.2, -9.6, -18.9, -23.0]

/-- Table lookup SOLAR_DECLINATIONS[m]; every in-range access in the worker
uses m between 0 and 11, the default 0 is never reached there. -/
def solarDeclination (m : ℕ) : ℚ := SOLAR_DECLINATIONS.getD m 0

/-- Conversion constant MJ_TO_KWH = 3.6 (1 kWh = 3.6 MJ). -/
def MJ_TO_KWH : ℚ := 3.6

/-- Result record of calculateMonthlyOptimalTilt. -/
structure OptimalTiltResult where
  tilt : ℤ
  direction : String
deriving DecidableEq

/-- Embeds calculateMonthlyOptimalTilt from the solar service: face toward
the sun (north exactly when the declination exceeds the latitude), tilt
|latitude - declination| rounded and clamped into [0, 90]. -/
def calculateMonthlyOptimalTilt (latitude : ℚ) (month : ℕ) : OptimalTiltResult :=
  let declination := solarDeclination (month - 1)
  let sunIsNorthOfLocation := declination > latitude
  let direction := if sunIsNorthOfLocation then "N" else "S"
  let optimalTilt := |latitude - declination|
  { tilt := max 0 (min 90 (mathRound optimalTilt)), direction := direction }

/-- Embeds getLatitudeGainRange: the four latitude bands with their
(minGain, maxGain) pairs, upper bounds exclusive. -/
def getLatitudeGainRange (latitude : ℚ) : ℚ × ℚ :=
  let absLat := |latitude|
  if absLat < 20 then (1.03, 1.15)
  else if absLat < 45 then (1.05, 1.40)
  else if absLat < 60 then (1.15, 1.80)
  else (1.20, 2.20)

/-- Embeds calculateMaxTiltGain: elevation factor |lat - decl| / 90 scaled
into the latitude band gain range and clamped to it. -/
def calculateMaxTiltGain (latitude : ℚ) (month : ℕ) : ℚ :=
  let declination := solarDeclination (month - 1)
  let optimalTilt := |latitude - declination|
  let noonElevation := 90 - optimalTilt
  let elevationFactor := 1 - noonElevation / 90
  let r := getLatitudeGainRange latitude
  let gainRange := r.2 - r.1
  let gain := r.1 + gainRange * elevationFactor
  max r.1 (min r.2 gain)

/-- Embeds calculateTiltGain: gain 1.0 for a flat panel, otherwise the
cosine-power efficiency of the deviation from the exact (unrounded) optimal
tilt, scaled between 1 and the maximal monthly gain and clamped there. The
transcendental Math.pow(Math.cos(tiltDifference * PI / 180), 1.5) is
abstracted as cosPow applied to the tilt difference in degrees. -/
def calculateTiltGain (latitude tiltAngle : ℚ) (month : ℕ) (cosPow : ℚ → ℚ) : ℚ :=
  if tiltAngle = 0 then 1
  else
    let declination := solarDeclination (month - 1)
    let optimalTiltForMonth := |latitude - declination|
    let maxGain := calculateMaxTiltGain latitude month
    let tiltDifference := |tiltAngle - optimalTiltForMonth|
    let tiltEfficiency := cosPow tiltDifference
    let gain := 1 + (maxGain - 1) * tiltEfficiency
    max 1 (min maxGain gain)

/-- The month bucket built by the grouping loops of processWeatherData and
processSolarData: the days whose parsed month is m, in input order. A day
whose datetime does not parse (gm returns none, modelling a NaN month)
fails the 0 <= month < 12 guard and lands in no bucket. -/
def monthBucket (gm : String → Option ℕ) (days : List VCDay) (m : ℕ) : List VCDay :=
  days.filter (fun d => decide (gm d.datetime = some m))

/-- The horizontal PSH of month m: mean solarenergy of the bucket divided
by MJ_TO_KWH, exactly the flatPSH computed inside processSolarData. -/
def horizontalPSH (gm : String → Option ℕ) (days : List VCDay) (m : ℕ) : JSNum :=
  (avg (monthBucket gm days m) VCDay.solarenergy).divQ MJ_TO_KWH

/-- Output record of processWeatherData for one month. -/
structure WeatherData where
  month : String
  highF : JSNum
  lowF : JSNum
  meanF : JSNum
  humidity : JSNum
deriving DecidableEq

/-- One tilt scenario of the solar output. -/
structure TiltScenario where
  tilt : String
  psh : JSNum
deriving DecidableEq

/-- Output record of processSolarData for one month. -/
structure SolarMonthData where
  month : String
  monthlyOptimal : TiltScenario
  yearlyFixed : TiltScenario
  flat : TiltScenario
deriving DecidableEq

/-- The body of the per-month loop of processWeatherData: each field is the
avg of that field over the bucket, rounded to 1 decimal. -/
def weatherMonthData (gm : String → Option ℕ) (days : List VCDay) (m : ℕ) : WeatherData :=
  let monthDays := monthBucket gm days m
  { month := MONTHS.getD m ""
    highF := round (avg monthDays VCDay.tempmax) 1
    lowF := round (avg monthDays VCDay.tempmin) 1
    meanF := round (avg monthDays VCDay.temp) 1
    humidity := round (avg monthDays VCDay.humidity) 1 }

/-- Embeds processWeatherData: twelve monthly summaries. -/
def processWeatherData (gm : String → Option ℕ) (days : List VCDay) : List WeatherData :=
  (List.range 12).map (weatherMonthData gm days)

/-- The body of the per-month loop of processSolarData (m is the zero-based
month): fixed tilt Math.round(Math.abs(latitude)) with direction S in the
northern hemisphere, flatPSH from the bucket mean, the three gains, and the
three scenarios rounded to 2 decimals. -/
def solarMonthData (gm : String → Option ℕ) (cosPow : ℚ → ℚ) (days : List VCDay)
    (latitude : ℚ) (m : ℕ) : SolarMonthData :=
  let fixedTilt : ℤ := mathRound |latitude|
  let yearlyDirection := if 0 ≤ latitude then "S" else "N"
  let flatPSH := horizontalPSH gm days m
  let monthNum := m + 1
  let monthly := calculateMonthlyOptimalTilt latitude monthNum
  let monthlyTiltGain := calculateMaxTiltGain latitude monthNum
  let fixedTiltGain := calculateTiltGain latitude (fixedTilt : ℚ) monthNum cosPow
  let monthlyPSH := flatPSH.mulQ monthlyTiltGain
  let fixedPSH := flatPSH.mulQ (min fixedTiltGain monthlyTiltGain)
  { month := MONTHS.getD m ""
    monthlyOptimal :=
      { tilt := toString monthly.tilt ++ "° " ++ monthly.direction
        psh := round monthlyPSH 2 }
    yearlyFixed :=
      { tilt := toString fixedTilt ++ "° " ++ yearlyDirection
        psh := round fixedPSH 2 }
    flat :=
      { tilt := "0°"
        psh := round flatPSH 2 } }

/-- Embeds processSolarData: twelve monthly solar records. -/
def processSolarData (gm : String → Option ℕ) (cosPow : ℚ → ℚ) (days : List VCDay)
    (latitude : ℚ) : List SolarMonthData :=
  (List.range 12).map (solarMonthData gm cosPow days latitude)

/-- Whitespace class of the JavaScript regex \s restricted to ASCII (the
locations handled by the cache key tests are ASCII). -/
def isJsWhitespace (c : Char) : Bool :=
  c == ' ' || c == '\t' || c == '\n' || c == '\r' || c.toNat == 11 || c.toNat == 12

/-- JavaScript String.prototype.trim on the ASCII whitespace class. -/
def jsTrim (s : String) : String :=
  String.mk (((s.data.dropWhile isJsWhitespace).reverse.dropWhile isJsWhitespace).reverse)

/-- Replace every maximal run of whitespace by a single underscore,
modelling String.prototype.replace with the pattern \s+ and replacement _. -/
def collapseWhitespace : List Char → List Char
  | [] => []
  | [c] => if isJsWhitespace c then ['_'] else [c]
  | c1 :: c2 :: rest =>
      if isJsWhitespace c1 && isJsWhitespace c2 then collapseWhitespace (c2 :: rest)
      else (if isJsWhitespace c1 then '_' else c1) :: collapseWhitespace (c2 :: rest)

/-- Embeds normalizeCacheKey from the cache utilities: lowercase, collapse
whitespace runs to underscores, prefix with location:. Char.toLower is the
ASCII lowering, which agrees with toLowerCase on the inputs considered. -/
def normalizeCacheKey (location : String) : String :=
  "location:" ++ String.mk (collapseWhitespace (location.data.map Char.toLower))

/-- Embeds validateAndSanitizeLocation from the validation utilities, with
none standing for a thrown error: reject missing or falsy (empty) input,
trim, reject blank or overlong input, strip control characters, reject the
result if nothing remains. -/
def validateAndSanitizeLocation (location : Option String) : Option String :=
  match location with
  | none => none
  | some loc =>
      if loc = "" then none
      else
        let trimmed := jsTrim loc
        if trimmed = "" then none
        else if 500 < trimmed.length then none
        else
          let sanitized := String.mk (trimmed.data.filter
            (fun c => decide (32 ≤ c.toNat ∧ c.toNat ≠ 127)))
          if sanitized = "" then none else some sanitized

/-- The cache key derivation performed by handleDataRequest on the
location-string path: validate and sanitize, then normalize. -/
def cacheKeyForLocation (location : Option String) : Option String :=
  (validateAndSanitizeLocation location).map normalizeCacheKey

/-- A concrete calendar-date parser standing in for the host
new Date(s).getMonth() in witnesses: accepts the shape YYYY-MM-DD with a
month between 01 and 12 and returns the zero-based month, none otherwise
(modelling getMonth() returning NaN on an invalid date). -/
def isoMonth (s : String) : Option ℕ :=
  match s.data with
  | [y1, y2, y3, y4, '-', m1, m2, '-', d1, d2] =>
      if y1.isDigit && y2.isDigit && y3.isDigit && y4.isDigit
          && m1.isDigit && m2.isDigit && d1.isDigit && d2.isDigit then
        let mo := 10 * (m1.toNat - 48) + (m2.toNat - 48)
        if 1 ≤ mo ∧ mo ≤ 12 then some (mo - 1) else none
      else none
  | _ => none

/-- A concrete rational stand-in for the abstracted cosine-power efficiency,
used only to instantiate the cosPow parameter in closed statements. Like the
true function cos(d deg) ^ 1.5 it equals 1 at 0 and lies in (0, 1]. -/
def cosPowSample (d : ℚ) : ℚ := 1 / (1 + d ^ 2)

/-- Written from the claim wording of C2: clamp(x, lo, hi). -/
def clampSpec (lo hi x : ℤ) : ℤ := max lo (min hi x)

/-- Written from the claim wording of C8: rounding to d decimals with
ties going up (toward positive infinity). -/
def roundHalfUpSpec (x : ℚ) (d : ℕ) : ℚ :=
  ((⌊x * 10 ^ d + 1 / 2⌋ : ℤ) : ℚ) / 10 ^ d

/-- Written from the claim wording of C8: rounding to d decimals with
ties going away from zero, sign(x) * floor(|x| * 10^d + 1/2) / 10^d. -/
def roundHalfAwaySpec (x : ℚ) (d : ℕ) : ℚ :=
  if 0 ≤ x then ((⌊x * 10 ^ d + 1 / 2⌋ : ℤ) : ℚ) / 10 ^ d
  else -(((⌊(-x) * 10 ^ d + 1 / 2⌋ : ℤ) : ℚ) / 10 ^ d)

/-- The values of a field that are present (not null) and not NaN, in
input order: exactly the values the avg loop accumulates. -/
def presentNonNaN {α : Type} (f : α → Option JSNum) (arr : List α) : List JSNum :=
  (arr.filterMap f).filter (fun v => !v.isNaNb)

/-- Written from the amended claim wording of C6: the JavaScript arithmetic
mean of a list of numbers, 0 when the list is empty. -/
def jsMean (vals : List JSNum) : JSNum :=
  if vals.isEmpty then .fin 0
  else (vals.foldl JSNum.add (.fin 0)).divQ (vals.length : ℚ)

/-- Written from the claim wording of C6: the finite values of a field that
are present, as exact rationals. -/
def presentFiniteVals {α : Type} (f : α → Option JSNum) (arr : List α) : List ℚ :=
  (arr.filterMap f).filterMap (fun v => match v with | .fin q => some q | _ => none)

/-- Written from the claim wording of C6: the arithmetic mean over only the
present, finite values, 0 when there are none. -/
def finiteMeanSpec {α : Type} (f : α → Option JSNum) (arr : List α) : ℚ :=
  let vals := presentFiniteVals f arr
  if vals.isEmpty then 0 else vals.sum / (vals.length : ℚ)

/-- Sample day for witnesses: January day with solar energy 9 MJ. -/
def sampleDay : VCDay :=
  { datetime := "2024-01-15", tempmax := some (.fin 80), tempmin := some (.fin 60)
    temp := some (.fin 70), humidity := some (.fin 50), solarenergy := some (.fin 9) }

/-- Sample input list for witnesses. -/
def sampleDays : List VCDay := [sampleDay]

/-- Sample day whose tempmax is present and finite. -/
def sampleFiniteDay : VCDay :=
  { datetime := "2024-01-10", tempmax := some (.fin 10), tempmin := none
    temp := none, humidity := none, solarenergy := none }

/-- Sample day whose tempmax is positive infinity. -/
def sampleInfDay : VCDay :=
  { datetime := "2024-01-11", tempmax := some .posInf, tempmin := none
    temp := none, humidity := none, solarenergy := none }

/-- Sample day whose tempmax is absent. -/
def sampleAbsentDay : VCDay :=
  { datetime := "2024-01-12", tempmax := none, tempmin := none
    temp := none, humidity := none, solarenergy := none }

/-- Sample day whose tempmax is NaN. -/
def sampleNaNDay : VCDay :=
  { datetime := "2024-01-13", tempmax := some .nan, tempmin := none
    temp := none, humidity := none, solarenergy := none }

/-- Sample day whose tempmax is the negative tie case, -0.25 degrees. -/
def sampleNegDay : VCDay :=
  { datetime := "2024-01-14", tempmax := some (.fin (-(1 / 4))), tempmin := none
    temp := none, humidity := none, solarenergy := none }

/-- Sample day whose datetime does not parse to a valid calendar date. -/
def badDay : VCDay :=
  { datetime := "not-a-date", tempmax := some (.fin 99), tempmin := some (.fin 1)
    temp := some (.fin 50), humidity := some (.fin 50), solarenergy := some (.fin 9) }

/-
Helper lemmas.
-/

theorem gainRange_bounds (lat : ℚ) :
    1 ≤ (getLatitudeGainRange lat).1 ∧ (getLatitudeGainRange lat).1 ≤ (getLatitudeGainRange lat).2 := by
  simp only [getLatitudeGainRange]
  split_ifs <;> exact ⟨by norm_num, by norm_num⟩

theorem one_le_calculateMaxTiltGain (lat : ℚ) (m : ℕ) : 1 ≤ calculateMaxTiltGain lat m := by
  simp only [calculateMaxTiltGain]
  exact le_trans (gainRange_bounds lat).1 (le_max_left _ _)

theorem one_le_calculateTiltGain (lat t : ℚ) (m : ℕ) (cp : ℚ → ℚ) :
    1 ≤ calculateTiltGain lat t m cp := by
  simp only [calculateTiltGain]
  split_ifs with h
  · exact le_refl 1
  · exact le_max_left _ _

theorem calculateTiltGain_le_max (lat t : ℚ) (m : ℕ) (cp : ℚ → ℚ) :
    calculateTiltGain lat t m cp ≤ calculateMaxTiltGain lat m := by
  simp only [calculateTiltGain]
  split_ifs with h
  · exact one_le_calculateMaxTiltGain lat m
  · exact max_le (one_le_calculateMaxTiltGain lat m) (min_le_left _ _)

theorem JSNum.le_fin_zero_iff (x : JSNum) :
    JSNum.le (.fin 0) x = true ↔ (∃ q : ℚ, x = .fin q ∧ 0 ≤ q) ∨ x = .posInf := by
  cases x with
  | fin q => simp [JSNum.le]
  | posInf => simp [JSNum.le]
  | negInf => simp [JSNum.le]
  | nan => simp [JSNum.le]

theorem JSNum.mulQ_one (x : JSNum) : x.mulQ 1 = x := by
  cases x <;> simp [JSNum.mulQ]

theorem JSNum.le_mulQ_of_one_le {x : JSNum} {g : ℚ}
    (hx : JSNum.le (.fin 0) x = true) (hg : 1 ≤ g) : JSNum.le x (x.mulQ g) = true := by
  have hgpos : 0 < g := lt_of_lt_of_le one_pos hg
  rcases (JSNum.le_fin_zero_iff x).mp hx with ⟨q, rfl, hq⟩ | rfl
  · simp only [JSNum.mulQ, JSNum.le, decide_eq_true_eq]
    exact le_mul_of_one_le_right hq hg
  · simp [JSNum.mulQ, JSNum.le, hgpos]

theorem JSNum.mulQ_le_mulQ {x : JSNum} {g1 g2 : ℚ}
    (hx : JSNum.le (.fin 0) x = true) (h1 : 0 < g1) (h12 : g1 ≤ g2) :
    JSNum.le (x.mulQ g1) (x.mulQ g2) = true := by
  have h2 : 0 < g2 := lt_of_lt_of_le h1 h12
  rcases (JSNum.le_fin_zero_iff x).mp hx with ⟨q, rfl, hq⟩ | rfl
  · simp only [JSNum.mulQ, JSNum.le, decide_eq_true_eq]
    exact mul_le_mul_of_nonneg_left h12 hq
  · simp [JSNum.mulQ, JSNum.le, h1, h2]

theorem mathRound_mono {a b : ℚ} (h : a ≤ b) : mathRound a ≤ mathRound b :=
  Int.floor_mono (by linarith)

theorem round_fin (p : ℚ) (d : ℕ) :
    round (.fin p) d = .fin (((mathRound (p * 10 ^ d) : ℤ) : ℚ) / 10 ^ d) := by
  have hf : ((10 : ℚ) ^ d) ≠ 0 := by positivity
  simp [round, JSNum.isNaNb, JSNum.mulQ, JSNum.roundNum, JSNum.divQ, hf]

theorem round_posInf (d : ℕ) : round .posInf d = .posInf := by
  have hf : (0 : ℚ) < 10 ^ d := by positivity
  simp [round, JSNum.isNaNb, JSNum.mulQ, JSNum.roundNum, JSNum.divQ, hf, not_lt_of_gt hf]

theorem round_negInf (d : ℕ) : round .negInf d = .negInf := by
  have hf : (0 : ℚ) < 10 ^ d := by positivity
  simp [round, JSNum.isNaNb, JSNum.mulQ, JSNum.roundNum, JSNum.divQ, hf, not_lt_of_gt hf]

theorem round_mono {x y : JSNum} (d : ℕ) (h : JSNum.le x y = true) :
    JSNum.le (round x d) (round y d) = true := by
  have hf : (0 : ℚ) < 10 ^ d := by positivity
  cases x with
  | nan => simp [JSNum.le] at h
  | posInf =>
      cases y with
      | posInf => simp [round_posInf, JSNum.le]
      | fin q => simp [JSNum.le] at h
      | negInf => simp [JSNum.le] at h
      | nan => simp [JSNum.le] at h
  | negInf =>
      cases y with
      | posInf => simp [round_negInf, round_posInf, JSNum.le]
      | negInf => simp [round_negInf, JSNum.le]
      | fin q => simp [round_negInf, round_fin, JSNum.le]
      | nan => simp [JSNum.le] at h
  | fin p =>
      cases y with
      | posInf => simp [round_fin, round_posInf, JSNum.le]
      | negInf => simp [JSNum.le] at h
      | nan => simp [JSNum.le] at h
      | fin q =>
          simp only [JSNum.le, decide_eq_true_eq] at h
          simp only [round_fin, JSNum.le, decide_eq_true_eq]
          have hfloor : mathRound (p * 10 ^ d) ≤ mathRound (q * 10 ^ d) :=
            mathRound_mono (mul_le_mul_of_nonneg_right h (le_of_lt hf))
          exact div_le_div_of_nonneg_right (by exact_mod_cast hfloor) (le_of_lt hf)

theorem mathRound_zero : mathRound 0 = 0 := by
  unfold mathRound
  rw [zero_add]
  exact Int.floor_eq_zero_iff.mpr (by constructor <;> norm_num)

theorem round_fin_zero (d : ℕ) : round (.fin 0) d = .fin 0 := by
  rw [round_fin]
  rw [zero_mul, mathRound_zero]
  norm_num

theorem avg_nil {α : Type} (f : α → Option JSNum) : avg ([] : List α) f = .fin 0 := rfl

theorem divQ_fin_zero {c : ℚ} (hc : c ≠ 0) : (JSNum.fin 0).divQ c = .fin 0 := by
  simp [JSNum.divQ, hc]

theorem mulQ_fin_zero (g : ℚ) : (JSNum.fin 0).mulQ g = .fin 0 := by
  simp [JSNum.mulQ]

theorem monthBucket_nil (gm : String → Option ℕ) (m : ℕ) : monthBucket gm [] m = [] := rfl

theorem monthBucket_cons (gm : String → Option ℕ) (d : VCDay) (ds : List VCDay) (m : ℕ) :
    monthBucket gm (d :: ds) m
      = if gm d.datetime = some m then d :: monthBucket gm ds m else monthBucket gm ds m := by
  simp only [monthBucket, List.filter_cons, decide_eq_true_eq]

theorem monthBucket_skip (gm : String → Option ℕ) (d : VCDay)
    (hbad : gm d.datetime = none) (before after : List VCDay) (m : ℕ) :
    monthBucket gm (before ++ d :: after) m = monthBucket gm (before ++ after) m := by
  simp only [monthBucket, List.filter_append, List.filter_cons, hbad]
  simp

theorem weatherMonthData_skip (gm : String → Option ℕ) (d : VCDay)
    (hbad : gm d.datetime = none) (before after : List VCDay) (m : ℕ) :
    weatherMonthData gm (before ++ d :: after) m = weatherMonthData gm (before ++ after) m := by
  unfold weatherMonthData
  rw [monthBucket_skip gm d hbad before after m]

theorem horizontalPSH_skip (gm : String → Option ℕ) (d : VCDay)
    (hbad : gm d.datetime = none) (before after : List VCDay) (m : ℕ) :
    horizontalPSH gm (before ++ d :: after) m = horizontalPSH gm (before ++ after) m := by
  unfold horizontalPSH
  rw [monthBucket_skip gm d hbad before after m]

theorem solarMonthData_skip (gm : String → Option ℕ) (cp : ℚ → ℚ) (d : VCDay)
    (hbad : gm d.datetime = none) (before after : List VCDay) (lat : ℚ) (m : ℕ) :
    solarMonthData gm cp (before ++ d :: after) lat m
      = solarMonthData gm cp (before ++ after) lat m := by
  unfold solarMonthData
  rw [horizontalPSH_skip gm d hbad before after m]

/-
Claim theorems.
-/

/-- C2: for every latitude in [-90, 90] and month 1..12 the monthly optimal
tilt equals clamp(round(|latitude - declination[month]|), 0, 90), and the
direction is N exactly when the declination exceeds the latitude, else S;
concretely, at latitude 30.27 and month 6 (declination 23.1) the result is
tilt 7 with direction S, displayed as 7° S. -/
theorem optimal_tilt_formula :
    (∀ (lat : ℚ) (m : ℕ), -90 ≤ lat → lat ≤ 90 → 1 ≤ m → m ≤ 12 →
      (calculateMonthlyOptimalTilt lat m).tilt
          = clampSpec 0 90 (mathRound |lat - solarDeclination (m - 1)|)
        ∧ ((calculateMonthlyOptimalTilt lat m).direction = "N"
            ↔ solarDeclination (m - 1) > lat))
    ∧ calculateMonthlyOptimalTilt 30.27 6 = ⟨7, "S"⟩
    ∧ (solarMonthData isoMonth cosPowSample [] 30.27 5).monthlyOptimal.tilt = "7° S" := by
  refine ⟨fun lat m _ _ _ _ => ⟨rfl, ?_⟩, ?_, ?_⟩
  · by_cases h : solarDeclination (m - 1) > lat
    · simp [calculateMonthlyOptimalTilt, h]
    · simp only [calculateMonthlyOptimalTilt, if_neg h]
      constructor
      · intro hd
        exact absurd hd (by decide)
      · intro hd
        exact absurd hd h
  · norm_num [calculateMonthlyOptimalTilt, solarDeclination, SOLAR_DECLINATIONS, mathRound,
      abs_of_nonneg, min_def, max_def]
  · have h : calculateMonthlyOptimalTilt 30.27 6 = ⟨7, "S"⟩ := by
      norm_num [calculateMonthlyOptimalTilt, solarDeclination, SOLAR_DECLINATIONS, mathRound,
        abs_of_nonneg, min_def, max_def]
    simp only [solarMonthData, h]
    decide

/-- C2 witness: the general part of optimal_tilt_formula instantiated at
latitude 30.27 and month 6. -/
theorem optimal_tilt_formula_witness :
    ((-90 : ℚ) ≤ 30.27 ∧ (30.27 : ℚ) ≤ 90 ∧ 1 ≤ 6 ∧ 6 ≤ 12)
    ∧ (calculateMonthlyOptimalTilt 30.27 6).tilt
        = clampSpec 0 90 (mathRound |(30.27 : ℚ) - solarDeclination (6 - 1)|)
    ∧ ((calculateMonthlyOptimalTilt 30.27 6).direction = "N"
        ↔ solarDeclination (6 - 1) > (30.27 : ℚ)) :=
  ⟨⟨by norm_num, by norm_num, by norm_num, by norm_num⟩,
   (optimal_tilt_formula.1 30.27 6 (by norm_num) (by norm_num) (by norm_num) (by norm_num)).1,
   (optimal_tilt_formula.1 30.27 6 (by norm_num) (by norm_num) (by norm_num) (by norm_num)).2⟩

/-- C3 counterexample: at latitude 23.1 and month 6 (declination 23.1) the
optimal tilt of the month is exactly 0, both unrounded and rounded, so a
caller fixed tilt of 0 equals the optimal tilt of the month; yet the fixed
gain is 1 while the maximal monthly gain is 1.05, refuting
fixedGain == maxGain at this input. -/
theorem fixed_equals_optimal_cex :
    |(23.1 : ℚ) - solarDeclination 5| = 0
    ∧ (calculateMonthlyOptimalTilt 23.1 6).tilt = 0
    ∧ calculateTiltGain 23.1 0 6 cosPowSample = 1
    ∧ calculateMaxTiltGain 23.1 6 = 1.05
    ∧ (1 : ℚ) ≠ 1.05 := by
  refine ⟨?_, ?_, ?_, ?_, by norm_num⟩
  · norm_num [solarDeclination, SOLAR_DECLINATIONS]
  · norm_num [calculateMonthlyOptimalTilt, solarDeclination, SOLAR_DECLINATIONS, mathRound,
      abs_of_nonneg, min_def, max_def]
  · simp [calculateTiltGain]
  · norm_num [calculateMaxTiltGain, getLatitudeGainRange, solarDeclination, SOLAR_DECLINATIONS,
      abs_of_nonneg, min_def, max_def]

/-- C3 (amended): whenever the caller fixed tilt is nonzero and equals the
exact optimal tilt |latitude - declination| of the month, the fixed gain
equals the maximal monthly gain; the efficiency factor is the abstracted
cosine power at 0, which is 1, so there is no penalty. The amendment
excludes the tilt-0 case, where the code returns gain 1 instead. -/
theorem fixed_equals_optimal_gain (lat t : ℚ) (m : ℕ) (cp : ℚ → ℚ)
    (hlat : -90 ≤ lat ∧ lat ≤ 90) (hm : 1 ≤ m ∧ m ≤ 12)
    (ht : t = |lat - solarDeclination (m - 1)|) (ht0 : t ≠ 0) (hcp : cp 0 = 1) :
    calculateTiltGain lat t m cp = calculateMaxTiltGain lat m := by
  have hmg := one_le_calculateMaxTiltGain lat m
  simp only [calculateTiltGain, if_neg ht0]
  rw [show abs (t - abs (lat - solarDeclination (m - 1))) = 0 by rw [ht]; simp [abs_abs]]
  rw [hcp, mul_one]
  rw [show (1 : ℚ) + (calculateMaxTiltGain lat m - 1) = calculateMaxTiltGain lat m by ring]
  rw [min_self, max_eq_right hmg]

/-- C3 witness: fixed_equals_optimal_gain at latitude 30, month 6, fixed
tilt 6.9 = |30 - 23.1|. -/
theorem fixed_equals_optimal_gain_witness :
    (6.9 : ℚ) = |(30 : ℚ) - solarDeclination (6 - 1)|
    ∧ (6.9 : ℚ) ≠ 0
    ∧ cosPowSample 0 = 1
    ∧ calculateTiltGain 30 6.9 6 cosPowSample = calculateMaxTiltGain 30 6 := by
  have h1 : (6.9 : ℚ) = |(30 : ℚ) - solarDeclination (6 - 1)| := by
    norm_num [solarDeclination, SOLAR_DECLINATIONS, abs_of_nonneg]
  have h2 : (6.9 : ℚ) ≠ 0 := by norm_num
  have h3 : cosPowSample 0 = 1 := by norm_num [cosPowSample]
  exact ⟨h1, h2, h3,
    fixed_equals_optimal_gain 30 6.9 6 cosPowSample ⟨by norm_num, by norm_num⟩
      ⟨by norm_num, by norm_num⟩ h1 h2 h3⟩

/-- C5 counterexample: at latitude 30.27, month 6 and fixed tilt 0, the
code returns gain 1, but plugging efficiency 1 into the claimed formula
clamp(1 + (maxGain - 1) * eff, 1, maxGain) yields maxGain, which is not 1;
so the efficiency actually in force at fixed tilt 0 is not 1. -/
theorem flat_efficiency_cex :
    calculateTiltGain 30.27 0 6 cosPowSample = 1
    ∧ max 1 (min (calculateMaxTiltGain 30.27 6)
        (1 + (calculateMaxTiltGain 30.27 6 - 1) * 1)) = calculateMaxTiltGain 30.27 6
    ∧ calculateMaxTiltGain 30.27 6 ≠ 1 := by
  have hmg : calculateMaxTiltGain 30.27 6 = 64673 / 60000 := by
    norm_num [calculateMaxTiltGain, getLatitudeGainRange, solarDeclination, SOLAR_DECLINATIONS,
      abs_of_nonneg, min_def, max_def]
  refine ⟨by simp [calculateTiltGain], ?_, ?_⟩
  · rw [hmg]
    norm_num [min_def, max_def]
  · rw [hmg]
    norm_num

/-- C5 (amended): when the caller fixed tilt is 0 the code short-circuits
and returns gain exactly 1 without evaluating the efficiency formula; the
returned value coincides with plugging efficiency 0, not 1, into
clamp(1 + (maxGain - 1) * eff, 1, maxGain). -/
theorem flat_tilt_gain_is_one (lat : ℚ) (m : ℕ) (cp : ℚ → ℚ) :
    calculateTiltGain lat 0 m cp = 1
    ∧ max 1 (min (calculateMaxTiltGain lat m) (1 + (calculateMaxTiltGain lat m - 1) * 0)) = 1 := by
  have hmg := one_le_calculateMaxTiltGain lat m
  refine ⟨by simp [calculateTiltGain], ?_⟩
  rw [mul_zero, add_zero, min_eq_right hmg, max_self]

/-- C4: whenever the yearly fixed tilt round(|latitude|) is 0, the
yearly-fixed PSH of every month equals the flat PSH exactly: in the output
record after rounding, and as the exact identity
flatPSH * min(fixedGain, maxGain) = flatPSH before rounding. -/
theorem flat_fixed_psh_equal (gm : String → Option ℕ) (cp : ℚ → ℚ) (days : List VCDay)
    (lat : ℚ) (m : ℕ) (hlat : -90 ≤ lat ∧ lat ≤ 90) (hm : m < 12)
    (h0 : mathRound |lat| = 0) :
    (solarMonthData gm cp days lat m).yearlyFixed.psh
        = (solarMonthData gm cp days lat m).flat.psh
    ∧ (horizontalPSH gm days m).mulQ
        (min (calculateTiltGain lat ((mathRound |lat| : ℤ) : ℚ) (m + 1) cp)
          (calculateMaxTiltGain lat (m + 1)))
      = horizontalPSH gm days m := by
  have hgain : calculateTiltGain lat ((mathRound |lat| : ℤ) : ℚ) (m + 1) cp = 1 := by
    rw [h0]
    simp [calculateTiltGain]
  have hmin : min (calculateTiltGain lat ((mathRound |lat| : ℤ) : ℚ) (m + 1) cp)
      (calculateMaxTiltGain lat (m + 1)) = 1 := by
    rw [hgain]
    exact min_eq_left (one_le_calculateMaxTiltGain lat (m + 1))
  constructor
  · simp only [solarMonthData]
    rw [hmin, JSNum.mulQ_one]
  · rw [hmin, JSNum.mulQ_one]

/-- C4 witness: flat_fixed_psh_equal at latitude 0.2 (fixed tilt 0) on the
sample January input. -/
theorem flat_fixed_psh_equal_witness :
    ((-90 : ℚ) ≤ 0.2 ∧ (0.2 : ℚ) ≤ 90)
    ∧ 0 < 12
    ∧ mathRound |(0.2 : ℚ)| = 0
    ∧ (solarMonthData isoMonth cosPowSample sampleDays 0.2 0).yearlyFixed.psh
        = (solarMonthData isoMonth cosPowSample sampleDays 0.2 0).flat.psh := by
  have h0 : mathRound |(0.2 : ℚ)| = 0 := by norm_num [mathRound, abs_of_nonneg]
  exact ⟨⟨by norm_num, by norm_num⟩, by norm_num, h0,
    (flat_fixed_psh_equal isoMonth cosPowSample sampleDays 0.2 0
      ⟨by norm_num, by norm_num⟩ (by norm_num) h0).1⟩

/-- C1: for every latitude in [-90, 90], month, and input whose monthly
horizontal PSH is nonnegative, the three PSH values of the solar output are
ordered flat <= yearlyFixed <= monthlyOptimal, both after the final
2-decimal rounding (first two conjuncts, on the output record) and before
it (next two conjuncts, on the exact products); processSolarData produces
exactly the twelve per-month records. -/
theorem psh_ordering (gm : String → Option ℕ) (cp : ℚ → ℚ) (days : List VCDay)
    (lat : ℚ) (m : ℕ) (hlat : -90 ≤ lat ∧ lat ≤ 90) (hm : m < 12)
    (hpsh : JSNum.le (.fin 0) (horizontalPSH gm days m) = true) :
    JSNum.le (solarMonthData gm cp days lat m).flat.psh
        (solarMonthData gm cp days lat m).yearlyFixed.psh = true
    ∧ JSNum.le (solarMonthData gm cp days lat m).yearlyFixed.psh
        (solarMonthData gm cp days lat m).monthlyOptimal.psh = true
    ∧ JSNum.le (horizontalPSH gm days m)
        ((horizontalPSH gm days m).mulQ
          (min (calculateTiltGain lat ((mathRound |lat| : ℤ) : ℚ) (m + 1) cp)
            (calculateMaxTiltGain lat (m + 1)))) = true
    ∧ JSNum.le ((horizontalPSH gm days m).mulQ
          (min (calculateTiltGain lat ((mathRound |lat| : ℤ) : ℚ) (m + 1) cp)
            (calculateMaxTiltGain lat (m + 1))))
        ((horizontalPSH gm days m).mulQ (calculateMaxTiltGain lat (m + 1))) = true
    ∧ processSolarData gm cp days lat = (List.range 12).map (solarMonthData gm cp days lat) := by
  have h1 : 1 ≤ calculateTiltGain lat ((mathRound |lat| : ℤ) : ℚ) (m + 1) cp :=
    one_le_calculateTiltGain lat _ (m + 1) cp
  have h2 : 1 ≤ calculateMaxTiltGain lat (m + 1) := one_le_calculateMaxTiltGain lat (m + 1)
  have hminge : 1 ≤ min (calculateTiltGain lat ((mathRound |lat| : ℤ) : ℚ) (m + 1) cp)
      (calculateMaxTiltGain lat (m + 1)) := le_min h1 h2
  have hminpos : 0 < min (calculateTiltGain lat ((mathRound |lat| : ℤ) : ℚ) (m + 1) cp)
      (calculateMaxTiltGain lat (m + 1)) := lt_of_lt_of_le one_pos hminge
  have hminle : min (calculateTiltGain lat ((mathRound |lat| : ℤ) : ℚ) (m + 1) cp)
      (calculateMaxTiltGain lat (m + 1)) ≤ calculateMaxTiltGain lat (m + 1) := min_le_right _ _
  have u1 := JSNum.le_mulQ_of_one_le hpsh hminge
  have u2 := JSNum.mulQ_le_mulQ hpsh hminpos hminle
  refine ⟨?_, ?_, u1, u2, rfl⟩
  · simp only [solarMonthData]
    exact round_mono 2 u1
  · simp only [solarMonthData]
    exact round_mono 2 u2

/-- C1 witness: psh_ordering at latitude 30, month index 0, on the sample
January input with 9 MJ of daily solar energy (horizontal PSH 2.5). -/
theorem psh_ordering_witness :
    ((-90 : ℚ) ≤ 30 ∧ (30 : ℚ) ≤ 90)
    ∧ 0 < 12
    ∧ JSNum.le (.fin 0) (horizontalPSH isoMonth sampleDays 0) = true
    ∧ JSNum.le (solarMonthData isoMonth cosPowSample sampleDays 30 0).flat.psh
        (solarMonthData isoMonth cosPowSample sampleDays 30 0).yearlyFixed.psh = true := by
  have hpsh : JSNum.le (.fin 0) (horizontalPSH isoMonth sampleDays 0) = true := by
    have hb : monthBucket isoMonth sampleDays 0 = [sampleDay] := by decide
    simp only [horizontalPSH, hb]
    simp [avg, sampleDay, JSNum.isNaNb, JSNum.add, JSNum.divQ, MJ_TO_KWH, JSNum.le]
    norm_num
  exact ⟨⟨by norm_num, by norm_num⟩, by norm_num, hpsh,
    (psh_ordering isoMonth cosPowSample sampleDays 30 0
      ⟨by norm_num, by norm_num⟩ (by norm_num) hpsh).1⟩

theorem avg_eq_jsMean {α : Type} (arr : List α) (f : α → Option JSNum) :
    avg arr f = jsMean (presentNonNaN f arr) := by
  by_cases h : arr = []
  · subst h
    rfl
  · have he : arr.isEmpty = false := by simpa using h
    simp only [avg, jsMean, presentNonNaN, he]
    rfl

/-- C6 counterexample: a January bucket holding tempmax values 10 and
positive infinity. The claimed mean over the present finite values is 10,
but avg and the produced monthly highF are positive infinity: the isNaN
filter does not exclude infinities, so a non-finite value does contribute. -/
theorem monthly_mean_fields_cex :
    avg [sampleFiniteDay, sampleInfDay] VCDay.tempmax = .posInf
    ∧ finiteMeanSpec VCDay.tempmax [sampleFiniteDay, sampleInfDay] = 10
    ∧ (weatherMonthData isoMonth [sampleFiniteDay, sampleInfDay] 0).highF = .posInf
    ∧ JSNum.posInf ≠ .fin 10 := by
  refine ⟨by decide, ?_, ?_, by decide⟩
  · norm_num [finiteMeanSpec, presentFiniteVals, sampleFiniteDay, sampleInfDay, List.filterMap]
  · have hb : monthBucket isoMonth [sampleFiniteDay, sampleInfDay] 0
        = [sampleFiniteDay, sampleInfDay] := by decide
    simp only [weatherMonthData, hb]
    simp only [avg, sampleFiniteDay, sampleInfDay]
    simp [JSNum.isNaNb, JSNum.add, JSNum.divQ]
    norm_num [round_posInf]

/-- C6 (amended): for every month bucket and numeric field independently,
the monthly value is the arithmetic mean over exactly the present non-NaN
values of the field: absent values are excluded and never treated as zero,
and NaN values do not contribute; ±Infinity values, however, are not
filtered out and propagate into the mean. -/
theorem monthly_mean_fields {α : Type} (gm : String → Option ℕ) (days : List VCDay) (m : ℕ)
    (arr : List α) (f : α → Option JSNum) (d0 : α) :
    avg arr f = jsMean (presentNonNaN f arr)
    ∧ (weatherMonthData gm days m).highF
        = round (jsMean (presentNonNaN VCDay.tempmax (monthBucket gm days m))) 1
    ∧ (weatherMonthData gm days m).lowF
        = round (jsMean (presentNonNaN VCDay.tempmin (monthBucket gm days m))) 1
    ∧ (weatherMonthData gm days m).meanF
        = round (jsMean (presentNonNaN VCDay.temp (monthBucket gm days m))) 1
    ∧ (weatherMonthData gm days m).humidity
        = round (jsMean (presentNonNaN VCDay.humidity (monthBucket gm days m))) 1
    ∧ horizontalPSH gm days m
        = (jsMean (presentNonNaN VCDay.solarenergy (monthBucket gm days m))).divQ MJ_TO_KWH
    ∧ (f d0 = none → presentNonNaN f (d0 :: arr) = presentNonNaN f arr)
    ∧ (f d0 = some .nan → presentNonNaN f (d0 :: arr) = presentNonNaN f arr) := by
  refine ⟨avg_eq_jsMean arr f, ?_, ?_, ?_, ?_, ?_, ?_, ?_⟩
  · simp only [weatherMonthData, avg_eq_jsMean]
  · simp only [weatherMonthData, avg_eq_jsMean]
  · simp only [weatherMonthData, avg_eq_jsMean]
  · simp only [weatherMonthData, avg_eq_jsMean]
  · simp only [horizontalPSH, avg_eq_jsMean]
  · intro h
    simp [presentNonNaN, List.filterMap_cons, h]
  · intro h
    simp [presentNonNaN, List.filterMap_cons, h, JSNum.isNaNb]

/-- C6 witness: monthly_mean_fields instantiated on the one-day January
bucket, with the absent-value and NaN-value conjuncts discharged on a day
with missing tempmax and a day with NaN tempmax. -/
theorem monthly_mean_fields_witness :
    VCDay.tempmax sampleAbsentDay = none
    ∧ presentNonNaN VCDay.tempmax (sampleAbsentDay :: [sampleFiniteDay])
        = presentNonNaN VCDay.tempmax [sampleFiniteDay]
    ∧ avg [sampleFiniteDay] VCDay.tempmax
        = jsMean (presentNonNaN VCDay.tempmax [sampleFiniteDay]) := by
  refine ⟨rfl, ?_, ?_⟩
  · exact (monthly_mean_fields isoMonth [] 0 [sampleFiniteDay] VCDay.tempmax
      sampleAbsentDay).2.2.2.2.2.2.1 rfl
  · exact (monthly_mean_fields isoMonth [] 0 [sampleFiniteDay] VCDay.tempmax
      sampleAbsentDay).1

/-- C7: whenever the bucket of month m is empty, every weather field of
that month is exactly 0, the horizontal PSH is 0, all three PSH outputs of
the month are 0 (never NaN), and both outputs still hold twelve months. -/
theorem empty_bucket_zero (gm : String → Option ℕ) (cp : ℚ → ℚ) (days : List VCDay)
    (lat : ℚ) (m : ℕ) (hm : m < 12) (hb : monthBucket gm days m = []) :
    (weatherMonthData gm days m).highF = .fin 0
    ∧ (weatherMonthData gm days m).lowF = .fin 0
    ∧ (weatherMonthData gm days m).meanF = .fin 0
    ∧ (weatherMonthData gm days m).humidity = .fin 0
    ∧ horizontalPSH gm days m = .fin 0
    ∧ (solarMonthData gm cp days lat m).flat.psh = .fin 0
    ∧ (solarMonthData gm cp days lat m).yearlyFixed.psh = .fin 0
    ∧ (solarMonthData gm cp days lat m).monthlyOptimal.psh = .fin 0
    ∧ (processWeatherData gm days).length = 12
    ∧ (processSolarData gm cp days lat).length = 12 := by
  have hpsh : horizontalPSH gm days m = .fin 0 := by
    rw [horizontalPSH, hb, avg_nil]
    exact divQ_fin_zero (by norm_num [MJ_TO_KWH])
  refine ⟨?_, ?_, ?_, ?_, hpsh, ?_, ?_, ?_, ?_, ?_⟩
  · simp only [weatherMonthData, hb, avg_nil]
    exact round_fin_zero 1
  · simp only [weatherMonthData, hb, avg_nil]
    exact round_fin_zero 1
  · simp only [weatherMonthData, hb, avg_nil]
    exact round_fin_zero 1
  · simp only [weatherMonthData, hb, avg_nil]
    exact round_fin_zero 1
  · simp only [solarMonthData, hpsh]
    exact round_fin_zero 2
  · simp only [solarMonthData, hpsh, mulQ_fin_zero]
    exact round_fin_zero 2
  · simp only [solarMonthData, hpsh, mulQ_fin_zero]
    exact round_fin_zero 2
  · simp [processWeatherData]
  · simp [processSolarData]

/-- C7 witness: empty_bucket_zero on the empty input at month 0. -/
theorem empty_bucket_zero_witness :
    0 < 12
    ∧ monthBucket isoMonth [] 0 = []
    ∧ (weatherMonthData isoMonth [] 0).highF = .fin 0
    ∧ (solarMonthData isoMonth cosPowSample [] 30 0).monthlyOptimal.psh = .fin 0 :=
  ⟨by norm_num, rfl,
   (empty_bucket_zero isoMonth cosPowSample [] 30 0 (by norm_num) rfl).1,
   (empty_bucket_zero isoMonth cosPowSample [] 30 0 (by norm_num) rfl).2.2.2.2.2.2.2.1⟩

/-- C8 counterexample: at the producible field value -0.25 the code rounds
to -0.2 (Math.round is half-up, ties toward positive infinity), while
round-half-away-from-zero gives -0.3; the sample single-day January bucket
with tempmax -0.25 produces exactly -0.2 as its monthly highF. -/
theorem rounding_half_up_cex :
    round (.fin (-(1 / 4))) 1 = .fin (-(1 / 5))
    ∧ roundHalfAwaySpec (-(1 / 4)) 1 = -(3 / 10)
    ∧ (-(1 / 5) : ℚ) ≠ -(3 / 10)
    ∧ (weatherMonthData isoMonth [sampleNegDay] 0).highF = .fin (-(1 / 5)) := by
  refine ⟨?_, ?_, by norm_num, ?_⟩
  · rw [round_fin]
    norm_num [mathRound]
  · norm_num [roundHalfAwaySpec]
  · have hb : monthBucket isoMonth [sampleNegDay] 0 = [sampleNegDay] := by
      rw [monthBucket_cons, if_pos (by decide : isoMonth sampleNegDay.datetime = some 0),
        monthBucket_nil]
    simp only [weatherMonthData, hb]
    simp only [avg, sampleNegDay]
    simp [JSNum.isNaNb, JSNum.add, JSNum.divQ]
    rw [round_fin]
    norm_num [mathRound]

/-- C8 (amended): every finite value is rounded with the half-up rule
floor(x * 10^d + 1/2) / 10^d (ties toward positive infinity); for
nonnegative values this coincides with round-half-away-from-zero. -/
theorem rounding_half_up (x : ℚ) (d : ℕ) :
    round (.fin x) d = .fin (roundHalfUpSpec x d)
    ∧ (0 ≤ x → roundHalfUpSpec x d = roundHalfAwaySpec x d) := by
  constructor
  · rw [round_fin]
    rfl
  · intro hx
    rw [roundHalfAwaySpec, if_pos hx]
    rfl

/-- C8 witness: rounding_half_up at 0.15 with 1 decimal. -/
theorem rounding_half_up_witness :
    round (.fin 0.15) 1 = .fin (roundHalfUpSpec 0.15 1)
    ∧ (0 : ℚ) ≤ 0.15
    ∧ roundHalfUpSpec 0.15 1 = roundHalfAwaySpec 0.15 1 :=
  ⟨(rounding_half_up 0.15 1).1, by norm_num, (rounding_half_up 0.15 1).2 (by norm_num)⟩

/-- C9: the cache key derivation lowercases the location, replaces each
whitespace run with an underscore and prefixes location:; on the request
path (which first trims and sanitizes the location) both Austin, TX and
the padded lower-case variant yield the same key location:austin,_tx. -/
theorem cache_key_normalization :
    cacheKeyForLocation (some "Austin, TX") = some "location:austin,_tx"
    ∧ cacheKeyForLocation (some " austin,  tx ") = some "location:austin,_tx"
    ∧ normalizeCacheKey "Austin, TX" = "location:austin,_tx" :=
  ⟨by decide, by decide, by decide⟩

/-- C10: a record whose datetime does not parse to a valid month (gm gives
none, modelling a NaN getMonth) is silently excluded everywhere: removing
it from the input changes neither the weather nor the solar output, no
failure occurs, and both outputs still hold all twelve months. -/
theorem invalid_date_excluded (gm : String → Option ℕ) (cp : ℚ → ℚ) (lat : ℚ)
    (before after : List VCDay) (d : VCDay) (hbad : gm d.datetime = none) :
    processWeatherData gm (before ++ d :: after) = processWeatherData gm (before ++ after)
    ∧ processSolarData gm cp (before ++ d :: after) lat
        = processSolarData gm cp (before ++ after) lat
    ∧ (processWeatherData gm (before ++ d :: after)).length = 12
    ∧ (processSolarData gm cp (before ++ d :: after) lat).length = 12 := by
  refine ⟨?_, ?_, by simp [processWeatherData], by simp [processSolarData]⟩
  · unfold processWeatherData
    have hf : weatherMonthData gm (before ++ d :: after)
        = weatherMonthData gm (before ++ after) :=
      funext (fun m => weatherMonthData_skip gm d hbad before after m)
    rw [hf]
  · unfold processSolarData
    have hf : solarMonthData gm cp (before ++ d :: after) lat
        = solarMonthData gm cp (before ++ after) lat :=
      funext (fun m => solarMonthData_skip gm cp d hbad before after lat m)
    rw [hf]

/-- C10 witness: invalid_date_excluded applied to the single unparseable
record not-a-date. -/
theorem invalid_date_excluded_witness :
    isoMonth badDay.datetime = none
    ∧ processWeatherData isoMonth [badDay] = processWeatherData isoMonth []
    ∧ (processSolarData isoMonth cosPowSample [badDay] 30).length = 12 := by
  have hbad : isoMonth badDay.datetime = none := by decide
  exact ⟨hbad,
    (invalid_date_excluded isoMonth cosPowSample 30 [] [] badDay hbad).1,
    (invalid_date_excluded isoMonth cosPowSample 30 [] [] badDay hbad).2.2.2⟩

end SolarPlanner
